import Mathlib

/-!
Verification of the file-persisted publish/subscribe message broker
(`src/fileSystem.ts`).  The broker keeps, per (subscriber, topic) pair, a
durable queue document with `processingEvents` and `processedEvents`,
a per-topic event log, and runs a bounded retry loop
(`executeEventHandler` / `tryProcessing`) around the caller-supplied
handler, with `incrementTries` / `eventAcknowledged` as the persisted
queue updates.

The embedding below models the persistence layer as an explicit `Store`
(association lists keyed like the JSON file names), and each broker
operation as a pure function from `Store` to `Store`, mirroring the
source line by line.  The interfaces `DeadLetterQueue` and
`DomainTopicErrors` are declared in the source but never written to;
they appear here as `Store` fields that no operation touches, which is
exactly what the code does.
-/

namespace MessageBroker

abbrev Domain := String
abbrev Topic := String
abbrev EventId := String
abbrev Content := String

/-- One entry of `EventLog.events` (`{parentId, eventId, content}`). -/
structure LoggedEvent where
  parentId : EventId
  eventId : EventId
  content : Content
  deriving Repr, DecidableEq

/-- `events-TOPIC.json`: the per-topic event log. -/
structure EventLog where
  topic : Topic
  events : List LoggedEvent
  deriving Repr, DecidableEq

/-- An entry of `DomainTopicQueue.processingEvents`. -/
structure ProcessingEvent where
  eventId : EventId
  content : Content
  tries : Nat
  deriving Repr, DecidableEq

/-- An entry of `DomainTopicQueue.processedEvents`; `processedAt` is a
timestamp, modelled as a `Nat`. -/
structure ProcessedEvent where
  eventId : EventId
  tries : Nat
  processedAt : Nat
  deriving Repr, DecidableEq

/-- `queue-SUBSCRIBER-TOPIC.json`: the per-subscription queue document. -/
structure DomainTopicQueue where
  subscriber : Domain
  topic : Topic
  processedEvents : List ProcessedEvent
  processingEvents : List ProcessingEvent
  deriving Repr, DecidableEq

/-- `dead-letter-queue.json` record shape (declared in the source, never
written). -/
structure DeadLetterRecord where
  eventId : EventId
  topic : Topic
  subscriber : Domain
  deriving Repr, DecidableEq

/-- `subscription-error.json` record shape (declared in the source, never
written). -/
structure ErrorRecord where
  subscriber : Domain
  topic : Topic
  eventId : EventId
  message : String
  deriving Repr, DecidableEq

/-- The persistence layer: the JSON files the broker reads and writes.
`queues` is keyed like `queue-SUBSCRIBER-TOPIC.json`, `logs` like
`events-TOPIC.json`.  `deadLetters` and `errors` stand for
`dead-letter-queue.json` and `subscription-error.json`; no operation in
the source ever writes them. -/
structure Store where
  queues : List ((Domain × Topic) × DomainTopicQueue)
  logs : List (Topic × EventLog)
  deadLetters : List DeadLetterRecord
  errors : List ErrorRecord
  deriving Repr, DecidableEq

def emptyStore : Store := { queues := [], logs := [], deadLetters := [], errors := [] }

/-- First-match lookup of a queue document (models `readJSON` returning
`null` on ENOENT, a document otherwise). -/
def findQueue : List ((Domain × Topic) × DomainTopicQueue) → Domain → Topic →
    Option DomainTopicQueue
  | [], _, _ => none
  | (k, q) :: rest, s, t => if k = (s, t) then some q else findQueue rest s t

def readQueue (st : Store) (s : Domain) (t : Topic) : Option DomainTopicQueue :=
  findQueue st.queues s t

/-- `writeJSON` of a queue document: the named file is overwritten
wholesale. -/
def writeQueue (st : Store) (s : Domain) (t : Topic) (q : DomainTopicQueue) : Store :=
  { st with queues := ((s, t), q) :: st.queues.filter (fun kv => decide (kv.1 ≠ (s, t))) }

def findLog : List (Topic × EventLog) → Topic → Option EventLog
  | [], _ => none
  | (k, l) :: rest, t => if k = t then some l else findLog rest t

def readLog (st : Store) (t : Topic) : Option EventLog := findLog st.logs t

/-- `topicLogs ? topicLogs.events.map(({eventId, content}) => ({eventId,
content, tries: 0})) : []` — the backfill performed when the queue file is
absent. -/
def seedFromLog : Option EventLog → List ProcessingEvent
  | some l => l.events.map (fun e => { eventId := e.eventId, content := e.content, tries := 0 })
  | none => []

/-- The queue-initialization step of `subscriberInitializer` (reading
`queue-SUBSCRIBER-TOPIC.json`; if absent, seeding from the event log and
persisting).  Returns the queue the subscription proceeds with and the
resulting store. -/
def subscriberInitQueue (st : Store) (s : Domain) (t : Topic) :
    DomainTopicQueue × Store :=
  match readQueue st s t with
  | some q => (q, st)
  | none =>
      let q : DomainTopicQueue :=
        { subscriber := s, topic := t, processedEvents := [],
          processingEvents := seedFromLog (readLog st t) }
      (q, writeQueue st s t q)

/-- The two failure modes of `incrementTries` / `eventAcknowledged`:
`queueNotFound` models the thrown `Error` when the queue file is missing;
`eventNotFound` models the raised error when the eventId is absent from
`processingEvents` (in `eventAcknowledged` the explicit thrown `Error`, in
`incrementTries` the TypeError raised by the non-null assertion on
`find(...)`). -/
inductive BrokerErr where
  | queueNotFound
  | eventNotFound
  deriving Repr, DecidableEq

/-- `processingEvents.find(v => v.eventId === eventId)!.tries++`:
increment the first matching entry, or fail when no entry matches. -/
def incTriesFirst : List ProcessingEvent → EventId → Option (List ProcessingEvent)
  | [], _ => none
  | e :: rest, id =>
      if e.eventId = id then some ({ e with tries := e.tries + 1 } :: rest)
      else
        match incTriesFirst rest id with
        | none => none
        | some rest2 => some (e :: rest2)

/-- `incrementTries(subscriber, topic, eventId)`: load the queue document
(throw if missing), increment the matching `processingEvents` entry's
`tries` (throw if absent), persist.  The returned store is the store after
the call, paired with the outcome; on error no write has been issued. -/
def incrementTries (st : Store) (s : Domain) (t : Topic) (eventId : EventId) :
    Except BrokerErr Unit × Store :=
  match readQueue st s t with
  | none => (.error .queueNotFound, st)
  | some q =>
      match incTriesFirst q.processingEvents eventId with
      | none => (.error .eventNotFound, st)
      | some pes => (.ok (), writeQueue st s t { q with processingEvents := pes })

/-- `splice(index, 1)` on `processingEvents`: drop the first entry whose
eventId matches. -/
def removeFirst : List ProcessingEvent → EventId → List ProcessingEvent
  | [], _ => []
  | e :: rest, id => if e.eventId = id then rest else e :: removeFirst rest id

/-- `eventAcknowledged(subscriber, topic, parentId)`: load the queue
(throw if missing), locate the entry in `processingEvents` (throw if
absent), splice it out, push `{eventId, tries, processedAt}` onto
`processedEvents`, filter any remaining same-id entries out of
`processingEvents`, and persist — all in one write. -/
def eventAcknowledged (st : Store) (s : Domain) (t : Topic) (parentId : EventId)
    (now : Nat) : Except BrokerErr Unit × Store :=
  match readQueue st s t with
  | none => (.error .queueNotFound, st)
  | some q =>
      match q.processingEvents.find? (fun v => decide (v.eventId = parentId)) with
      | none => (.error .eventNotFound, st)
      | some pe =>
          let q2 : DomainTopicQueue :=
            { q with
              processedEvents := q.processedEvents ++
                [{ eventId := parentId, tries := pe.tries, processedAt := now }],
              processingEvents :=
                (removeFirst q.processingEvents parentId).filter
                  (fun v => decide (v.eventId ≠ parentId)) }
          (.ok (), writeQueue st s t q2)

/-- One subscriber's step of the publish fan-out
(`persistEventsInSubscriberQueues` body): read the queue file; if it does
not exist (`if (!logs) return`), do nothing; otherwise push
`{eventId, content, tries: 0}` and persist. -/
def enqueueOne (st : Store) (s : Domain) (t : Topic) (eventId : EventId)
    (content : Content) : Store :=
  match readQueue st s t with
  | none => st
  | some q =>
      writeQueue st s t
        { q with processingEvents :=
            q.processingEvents ++ [{ eventId := eventId, content := content, tries := 0 }] }

/-- `persistEventsInSubscriberQueues`: run the fan-out step for every
subscriber currently bound to the topic (`topicObj.subscribers`). -/
def persistEventsInSubscriberQueues (st : Store) (subs : List Domain) (t : Topic)
    (eventId : EventId) (content : Content) : Store :=
  match subs with
  | [] => st
  | s :: rest =>
      persistEventsInSubscriberQueues (enqueueOne st s t eventId content) rest t eventId content

/-- Observable steps of one delivery attempt, in execution order.
`dispatch b` records the `isRetry` flag `tryProcessing` was given: `true`
selects the `setTimeout(..., 5000)` path, `false` the immediate path. -/
inductive Action where
  | dispatch (isRetry : Bool)
  | incremented
  | incFailed (e : BrokerErr)
  | handlerRun (ok : Bool)
  | acked
  | ackFailed (e : BrokerErr)
  deriving Repr, DecidableEq

/-- The delay in milliseconds before the attempt body runs: the
`setTimeout(..., 5000)` branch when `isRetry`, the immediate branch
otherwise. -/
def attemptDelay (isRetry : Bool) : Nat := if isRetry then 5000 else 0

structure AttemptOut where
  store : Store
  ok : Bool
  trace : List Action
  deriving Repr, DecidableEq

/-- `tryProcessing`: one delivery attempt.  `await incrementTries` first;
if it throws the attempt rejects and the handler never runs.  Then the
caller-supplied handler (its outcome abstracted to `handlerOk`); on
success `await eventAcknowledged`.  Any raised error rejects the attempt.
The `trace` records the steps in the order the source performs them. -/
def tryProcessing (st : Store) (s : Domain) (t : Topic) (parentId : EventId)
    (handlerOk : Bool) (now : Nat) (isRetry : Bool) : AttemptOut :=
  match incrementTries st s t parentId with
  | (.error e, st1) =>
      { store := st1, ok := false, trace := [.dispatch isRetry, .incFailed e] }
  | (.ok _, st1) =>
      if handlerOk then
        match eventAcknowledged st1 s t parentId now with
        | (.error e, st2) =>
            { store := st2, ok := false,
              trace := [.dispatch isRetry, .incremented, .handlerRun true, .ackFailed e] }
        | (.ok _, st2) =>
            { store := st2, ok := true,
              trace := [.dispatch isRetry, .incremented, .handlerRun true, .acked] }
      else
        { store := st1, ok := false,
          trace := [.dispatch isRetry, .incremented, .handlerRun false] }

structure RunOut where
  store : Store
  triesCount : Nat
  acked : Bool
  trace : List Action
  deriving Repr, DecidableEq

/-- The retry loop of `executeEventHandler`:
`while (!acked && triesCount < 5) { triesCount++; await tryProcessing(...,
triesCount !== tries).then(() => acked = true).catch(() => {}) }`.
`handler n` is the outcome of the handler on the attempt with
`triesCount = n`.  The `fuel` argument only bounds the recursion; the loop
guard `triesCount < 5` always releases first (each iteration increments
`triesCount` by one), and the `fuel = 0` branch coincides with the guard
failing. -/
def ehLoop (s : Domain) (t : Topic) (parentId : EventId) (handler : Nat → Bool)
    (now : Nat) (tries : Nat) : Nat → Store → Nat → RunOut
  | 0, st, triesCount => { store := st, triesCount := triesCount, acked := false, trace := [] }
  | fuel + 1, st, triesCount =>
      if triesCount < 5 then
        let tc := triesCount + 1
        let out := tryProcessing st s t parentId (handler tc) now (decide (tc ≠ tries))
        if out.ok then
          { store := out.store, triesCount := tc, acked := true, trace := out.trace }
        else
          let r := ehLoop s t parentId handler now tries fuel out.store tc
          { store := r.store, triesCount := r.triesCount, acked := r.acked,
            trace := out.trace ++ r.trace }
      else { store := st, triesCount := triesCount, acked := false, trace := [] }

/-- `executeEventHandler(eventHandler, subscriber, topic, content, tries,
parentId)`: run the retry loop starting from `triesCount = tries`. -/
def executeEventHandler (st : Store) (s : Domain) (t : Topic) (parentId : EventId)
    (handler : Nat → Bool) (now : Nat) (tries : Nat) : RunOut :=
  ehLoop s t parentId handler now tries 5 st tries

/-- Number of handler invocations recorded in a trace. -/
def handlerRunCount : List Action → Nat
  | [] => 0
  | .handlerRun _ :: rest => handlerRunCount rest + 1
  | _ :: rest => handlerRunCount rest

def processingIds (q : DomainTopicQueue) : List EventId :=
  q.processingEvents.map (fun e => e.eventId)

def processedIds (q : DomainTopicQueue) : List EventId :=
  q.processedEvents.map (fun e => e.eventId)

/-- The exclusivity invariant: an eventId is in at most one of the two
sets of a queue document. -/
def DisjointQueue (q : DomainTopicQueue) : Prop :=
  ∀ id ∈ processingIds q, id ∉ processedIds q

def isErr : Except BrokerErr Unit → Bool
  | .error _ => true
  | .ok _ => false


/-- Store used to witness subscription initialization: one logged event on
`ORDER_CREATED`, no queue documents. -/
def demoStore : Store :=
  { queues := [],
    logs := [("ORDER_CREATED",
      { topic := "ORDER_CREATED",
        events := [{ parentId := "p", eventId := "e1", content := "c1" }] })],
    deadLetters := [], errors := [] }

/-- Store used to witness acknowledgment: one in-flight event with three
started attempts and one already-completed event. -/
def ackStore : Store :=
  writeQueue emptyStore "PAYMENT" "ORDER_CREATED"
    { subscriber := "PAYMENT", topic := "ORDER_CREATED",
      processedEvents := [{ eventId := "F", tries := 1, processedAt := 0 }],
      processingEvents := [{ eventId := "E", content := "c", tries := 3 }] }

/-- Store used to witness publish fan-out: only subscriber `S2` has a
queue document for topic `T`. -/
def fanStore : Store :=
  writeQueue emptyStore "S2" "T"
    { subscriber := "S2", topic := "T", processedEvents := [], processingEvents := [] }

theorem readQueue_writeQueue_same (st : Store) (s : Domain) (t : Topic)
    (q : DomainTopicQueue) : readQueue (writeQueue st s t q) s t = some q := by
  simp [readQueue, writeQueue, findQueue]

theorem writeQueue_deadLetters_errors (st : Store) (s : Domain) (t : Topic)
    (q : DomainTopicQueue) :
    (writeQueue st s t q).deadLetters = st.deadLetters ∧
    (writeQueue st s t q).errors = st.errors := ⟨rfl, rfl⟩

theorem incTriesFirst_none_of_not_mem (l : List ProcessingEvent) (id : EventId)
    (h : ∀ pe ∈ l, pe.eventId ≠ id) : incTriesFirst l id = none := by
  induction l with
  | nil => rfl
  | cons e rest ih =>
      simp only [incTriesFirst]
      rw [if_neg (h e (by simp))]
      rw [ih (fun pe hpe => h pe (by simp [hpe]))]

theorem incTriesFirst_ids (l : List ProcessingEvent) (id : EventId)
    (l2 : List ProcessingEvent) (h : incTriesFirst l id = some l2) :
    l2.map (fun e => e.eventId) = l.map (fun e => e.eventId) := by
  induction l generalizing l2 with
  | nil => simp [incTriesFirst] at h
  | cons e rest ih =>
      simp only [incTriesFirst] at h
      by_cases he : e.eventId = id
      · rw [if_pos he] at h
        cases h
        simp
      · rw [if_neg he] at h
        cases hrec : incTriesFirst rest id with
        | none => rw [hrec] at h; cases h
        | some rest2 =>
            rw [hrec] at h
            cases h
            simp [ih rest2 hrec]

theorem removeFirst_ids_subset (l : List ProcessingEvent) (id x : EventId)
    (h : x ∈ (removeFirst l id).map (fun e => e.eventId)) :
    x ∈ l.map (fun e => e.eventId) := by
  induction l with
  | nil => simp [removeFirst] at h
  | cons e rest ih =>
      simp only [removeFirst] at h
      by_cases he : e.eventId = id
      · rw [if_pos he] at h
        simp [h]
      · rw [if_neg he] at h
        simp only [List.map_cons, List.mem_cons] at h ⊢
        rcases h with h | h
        · exact Or.inl h
        · exact Or.inr (ih h)

/-- C2: subscription initialization.  If no queue document exists for
(subscriber, topic), the persisted queue contains exactly the logged
events of the topic in `processingEvents`, each with `tries = 0`, and an
empty `processedEvents`; if a queue document already exists it is loaded
as-is and the store is unmodified. -/
theorem initialization_seeds_full_log (st : Store) (s : Domain) (t : Topic) :
    (∀ q, readQueue st s t = some q → subscriberInitQueue st s t = (q, st)) ∧
    (readQueue st s t = none → ∀ log, readLog st t = some log →
      (subscriberInitQueue st s t).1.processingEvents =
        log.events.map (fun e => { eventId := e.eventId, content := e.content, tries := 0 }) ∧
      (subscriberInitQueue st s t).1.processedEvents = [] ∧
      readQueue (subscriberInitQueue st s t).2 s t = some (subscriberInitQueue st s t).1) := by
  constructor
  · intro q hq
    simp [subscriberInitQueue, hq]
  · intro hn log hl
    simp [subscriberInitQueue, hn, hl, seedFromLog, readQueue_writeQueue_same]

theorem initialization_seeds_full_log_witness :
    readQueue demoStore "PAYMENT" "ORDER_CREATED" = none ∧
    (subscriberInitQueue demoStore "PAYMENT" "ORDER_CREATED").1.processingEvents =
      [{ eventId := "e1", content := "c1", tries := 0 }] ∧
    readQueue (subscriberInitQueue demoStore "PAYMENT" "ORDER_CREATED").2
      "PAYMENT" "ORDER_CREATED" =
      some (subscriberInitQueue demoStore "PAYMENT" "ORDER_CREATED").1 := by
  have h := (initialization_seeds_full_log demoStore "PAYMENT" "ORDER_CREATED").2 (by decide)
    { topic := "ORDER_CREATED",
      events := [{ parentId := "p", eventId := "e1", content := "c1" }] } (by decide)
  exact ⟨by decide, h.1.trans (by decide), h.2.2⟩

/-- C6: `incrementTries` fails with `queueNotFound` when the queue
document for (subscriber, topic) is missing, and with `eventNotFound`
when the eventId is absent from that queue's `processingEvents`; in both
cases the operation's result is the raised error (never a silent
success). -/
theorem incrementTries_failure_modes (st : Store) (s : Domain) (t : Topic) (id : EventId) :
    (readQueue st s t = none → incrementTries st s t id = (.error .queueNotFound, st)) ∧
    (∀ q, readQueue st s t = some q → (∀ pe ∈ q.processingEvents, pe.eventId ≠ id) →
      incrementTries st s t id = (.error .eventNotFound, st)) := by
  constructor
  · intro h
    simp [incrementTries, h]
  · intro q hq hnot
    simp [incrementTries, hq, incTriesFirst_none_of_not_mem q.processingEvents id hnot]

theorem incrementTries_failure_modes_witness :
    incrementTries emptyStore "S" "T" "E" = (.error .queueNotFound, emptyStore) ∧
    incrementTries fanStore "S2" "T" "E" = (.error .eventNotFound, fanStore) := by
  constructor
  · exact (incrementTries_failure_modes emptyStore "S" "T" "E").1 (by decide)
  · exact (incrementTries_failure_modes fanStore "S2" "T" "E").2
      { subscriber := "S2", topic := "T", processedEvents := [], processingEvents := [] }
      (by decide) (by decide)

/-- C9: when `incrementTries` or `eventAcknowledged` fails (missing queue
document or eventId absent from `processingEvents`), the error is raised
before any write is issued: the store after the failed call is exactly the
store before it. -/
theorem failed_update_leaves_store_unchanged (st : Store) (s : Domain) (t : Topic)
    (id : EventId) (now : Nat) :
    (isErr (incrementTries st s t id).1 = true → (incrementTries st s t id).2 = st) ∧
    (isErr (eventAcknowledged st s t id now).1 = true →
      (eventAcknowledged st s t id now).2 = st) := by
  constructor
  · intro h
    cases hq : readQueue st s t with
    | none => simp [incrementTries, hq]
    | some q =>
        cases hi : incTriesFirst q.processingEvents id with
        | none => simp [incrementTries, hq, hi]
        | some pes =>
            exfalso
            simp [incrementTries, hq, hi, isErr] at h
  · intro h
    cases hq : readQueue st s t with
    | none => simp [eventAcknowledged, hq]
    | some q =>
        cases hf : q.processingEvents.find? (fun v => decide (v.eventId = id)) with
        | none => simp [eventAcknowledged, hq, hf]
        | some pe =>
            exfalso
            simp [eventAcknowledged, hq, hf, isErr] at h

theorem failed_update_leaves_store_unchanged_witness :
    (incrementTries emptyStore "S" "T" "E").2 = emptyStore ∧
    (eventAcknowledged emptyStore "S" "T" "E" 0).2 = emptyStore :=
  ⟨(failed_update_leaves_store_unchanged emptyStore "S" "T" "E" 0).1 (by decide),
   (failed_update_leaves_store_unchanged emptyStore "S" "T" "E" 0).2 (by decide)⟩

/-- C10: during publish fan-out, a subscriber bound to the topic whose
queue document does not exist is skipped silently — the fan-out step
writes nothing for it and the remaining subscribers are processed exactly
as if the missing one were not listed. -/
theorem fanout_skips_missing_queue (st : Store) (s : Domain) (rest : List Domain)
    (t : Topic) (id : EventId) (c : Content) (h : readQueue st s t = none) :
    enqueueOne st s t id c = st ∧
    persistEventsInSubscriberQueues st (s :: rest) t id c =
      persistEventsInSubscriberQueues st rest t id c := by
  have he : enqueueOne st s t id c = st := by simp [enqueueOne, h]
  exact ⟨he, by simp [persistEventsInSubscriberQueues, he]⟩

theorem fanout_skips_missing_queue_witness :
    readQueue fanStore "S1" "T" = none ∧
    persistEventsInSubscriberQueues fanStore ["S1", "S2"] "T" "E" "c" =
      persistEventsInSubscriberQueues fanStore ["S2"] "T" "E" "c" ∧
    readQueue (persistEventsInSubscriberQueues fanStore ["S1", "S2"] "T" "E" "c") "S2" "T" =
      some { subscriber := "S2", topic := "T", processedEvents := [],
             processingEvents := [{ eventId := "E", content := "c", tries := 0 }] } :=
  ⟨by decide, (fanout_skips_missing_queue fanStore "S1" ["S2"] "T" "E" "c" (by decide)).2,
   by decide⟩

/-- C3: every queue operation preserves the exclusivity invariant (an
eventId is in at most one of `processingEvents` / `processedEvents`):
initialization of a fresh queue yields a disjoint queue; fan-out enqueue
of a fresh eventId preserves disjointness; `incrementTries` preserves it;
and `eventAcknowledged` preserves it while, in its single write, putting
the eventId into `processedEvents` and removing it from
`processingEvents`. -/
theorem exclusivity_preserved (st : Store) (s : Domain) (t : Topic) :
    (readQueue st s t = none → DisjointQueue (subscriberInitQueue st s t).1) ∧
    (∀ q, readQueue st s t = some q → DisjointQueue q →
      (∀ id c q', id ∉ processedIds q →
        readQueue (enqueueOne st s t id c) s t = some q' → DisjointQueue q') ∧
      (∀ id st' q', incrementTries st s t id = (.ok (), st') →
        readQueue st' s t = some q' → DisjointQueue q') ∧
      (∀ id now st' q', eventAcknowledged st s t id now = (.ok (), st') →
        readQueue st' s t = some q' →
        DisjointQueue q' ∧ id ∈ processedIds q' ∧ id ∉ processingIds q')) := by
  constructor
  · intro hn
    simp [subscriberInitQueue, hn, DisjointQueue, processedIds]
  · intro q hq hd
    refine ⟨?_, ?_, ?_⟩
    · intro id c q' hfresh hq'
      simp only [enqueueOne, hq, readQueue_writeQueue_same, Option.some.injEq] at hq'
      subst hq'
      intro x hx
      simp only [processingIds, processedIds, List.map_append, List.mem_append,
        List.map_cons, List.map_nil, List.mem_cons, List.not_mem_nil, or_false] at hx ⊢
      rcases hx with hx | hx
      · exact hd x hx
      · subst hx
        simpa [processedIds] using hfresh
    · intro id st' q' hinc hq'
      cases hi : incTriesFirst q.processingEvents id with
      | none => simp [incrementTries, hq, hi] at hinc
      | some pes =>
          simp only [incrementTries, hq, hi, Prod.mk.injEq] at hinc
          rw [← hinc.2, readQueue_writeQueue_same, Option.some.injEq] at hq'
          subst hq'
          intro x hx
          simp only [processingIds] at hx
          rw [incTriesFirst_ids q.processingEvents id pes hi] at hx
          exact hd x hx
    · intro id now st' q' hack hq'
      cases hf : q.processingEvents.find? (fun v => decide (v.eventId = id)) with
      | none => simp [eventAcknowledged, hq, hf] at hack
      | some pe =>
          simp only [eventAcknowledged, hq, hf, Prod.mk.injEq] at hack
          rw [← hack.2, readQueue_writeQueue_same, Option.some.injEq] at hq'
          subst hq'
          refine ⟨?_, ?_, ?_⟩
          · intro x hx
            simp only [processingIds, List.mem_map] at hx
            obtain ⟨v, hv, hvx⟩ := hx
            rw [List.mem_filter] at hv
            have hxne : x ≠ id := by
              rw [← hvx]
              simpa using hv.2
            have hxq : x ∈ processingIds q := by
              apply removeFirst_ids_subset q.processingEvents id x
              exact List.mem_map.mpr ⟨v, hv.1, hvx⟩
            have hxnp : x ∉ processedIds q := hd x hxq
            simp only [processedIds, List.map_append, List.mem_append, List.map_cons,
              List.map_nil, List.mem_cons, List.not_mem_nil, or_false]
            rintro (hc | hc)
            · exact hxnp hc
            · exact hxne hc
          · simp [processedIds]
          · intro hx
            simp only [processingIds, List.mem_map] at hx
            obtain ⟨v, hv, hvx⟩ := hx
            rw [List.mem_filter] at hv
            have := hv.2
            simp [hvx] at this

theorem exclusivity_preserved_witness :
    DisjointQueue
      { subscriber := "PAYMENT", topic := "ORDER_CREATED",
        processedEvents := [{ eventId := "F", tries := 1, processedAt := 0 },
                            { eventId := "E", tries := 3, processedAt := 5 }],
        processingEvents := [] } ∧
    "E" ∈ processedIds
      { subscriber := "PAYMENT", topic := "ORDER_CREATED",
        processedEvents := [{ eventId := "F", tries := 1, processedAt := 0 },
                            { eventId := "E", tries := 3, processedAt := 5 }],
        processingEvents := [] } ∧
    "E" ∉ processingIds
      { subscriber := "PAYMENT", topic := "ORDER_CREATED",
        processedEvents := [{ eventId := "F", tries := 1, processedAt := 0 },
                            { eventId := "E", tries := 3, processedAt := 5 }],
        processingEvents := [] } := by
  exact ((exclusivity_preserved ackStore "PAYMENT" "ORDER_CREATED").2
    { subscriber := "PAYMENT", topic := "ORDER_CREATED",
      processedEvents := [{ eventId := "F", tries := 1, processedAt := 0 }],
      processingEvents := [{ eventId := "E", content := "c", tries := 3 }] }
    (by decide) (by unfold DisjointQueue; decide)).2.2 "E" 5
    (eventAcknowledged ackStore "PAYMENT" "ORDER_CREATED" "E" 5).2
    { subscriber := "PAYMENT", topic := "ORDER_CREATED",
      processedEvents := [{ eventId := "F", tries := 1, processedAt := 0 },
                          { eventId := "E", tries := 3, processedAt := 5 }],
      processingEvents := [] }
    (by rfl) (by decide)

theorem writeQueue_deadLetters (st : Store) (s : Domain) (t : Topic)
    (q : DomainTopicQueue) : (writeQueue st s t q).deadLetters = st.deadLetters := rfl

theorem writeQueue_errors (st : Store) (s : Domain) (t : Topic)
    (q : DomainTopicQueue) : (writeQueue st s t q).errors = st.errors := rfl

/-- C1 counterexample: a handler that fails on every attempt is tried
exactly 5 times and then abandoned, but no `DeadLetterRecord` is ever
persisted — the dead-letter store stays empty and the event stays in
`processingEvents`. -/
theorem retry_exhaustion_no_deadletter_cex :
    (executeEventHandler
        (writeQueue emptyStore "PAYMENT" "ORDER_CREATED"
          ⟨"PAYMENT", "ORDER_CREATED", [], [⟨"E1", "c", 0⟩]⟩)
        "PAYMENT" "ORDER_CREATED" "E1" (fun _ => false) 0 0).triesCount = 5 ∧
    (executeEventHandler
        (writeQueue emptyStore "PAYMENT" "ORDER_CREATED"
          ⟨"PAYMENT", "ORDER_CREATED", [], [⟨"E1", "c", 0⟩]⟩)
        "PAYMENT" "ORDER_CREATED" "E1" (fun _ => false) 0 0).acked = false ∧
    ({ eventId := "E1", topic := "ORDER_CREATED", subscriber := "PAYMENT" } : DeadLetterRecord) ∉
      (executeEventHandler
        (writeQueue emptyStore "PAYMENT" "ORDER_CREATED"
          ⟨"PAYMENT", "ORDER_CREATED", [], [⟨"E1", "c", 0⟩]⟩)
        "PAYMENT" "ORDER_CREATED" "E1" (fun _ => false) 0 0).store.deadLetters := by
  decide

/-- C1 amended: for every (subscriber, topic, eventId) whose handler
fails on every attempt, the delivery engine makes exactly 5 handler
attempts, the event is no longer retried (the loop ends with
`triesCount = 5`, unacknowledged), the event remains in
`processingEvents` with `tries = 5`, and the dead-letter store is left
unchanged — no `DeadLetterRecord` is persisted. -/
theorem retry_exhaustion_bound (st : Store) (s : Domain) (t : Topic)
    (id : EventId) (c : Content) (now : Nat) :
    (executeEventHandler (writeQueue st s t ⟨s, t, [], [⟨id, c, 0⟩]⟩) s t id
      (fun _ => false) now 0).triesCount = 5 ∧
    (executeEventHandler (writeQueue st s t ⟨s, t, [], [⟨id, c, 0⟩]⟩) s t id
      (fun _ => false) now 0).acked = false ∧
    handlerRunCount (executeEventHandler (writeQueue st s t ⟨s, t, [], [⟨id, c, 0⟩]⟩)
      s t id (fun _ => false) now 0).trace = 5 ∧
    readQueue (executeEventHandler (writeQueue st s t ⟨s, t, [], [⟨id, c, 0⟩]⟩) s t id
      (fun _ => false) now 0).store s t = some ⟨s, t, [], [⟨id, c, 5⟩]⟩ ∧
    (executeEventHandler (writeQueue st s t ⟨s, t, [], [⟨id, c, 0⟩]⟩) s t id
      (fun _ => false) now 0).store.deadLetters = st.deadLetters := by
  simp [executeEventHandler, ehLoop, tryProcessing, incrementTries,
    readQueue_writeQueue_same, incTriesFirst, handlerRunCount, writeQueue_deadLetters]

/-- C4: the very first attempt for a freshly-enqueued event (`tries = 0`)
is dispatched on the delayed path.  The source computes `isRetry` as
`triesCount !== tries` after `triesCount++`, which is true already on the
first attempt, so the non-delayed branch of `tryProcessing` is
unreachable and attempt #1 waits the 5-second redelivery delay. -/
theorem first_attempt_dispatched_delayed :
    (executeEventHandler
        (writeQueue emptyStore "PAYMENT" "ORDER_CREATED"
          ⟨"PAYMENT", "ORDER_CREATED", [], [⟨"E1", "c", 0⟩]⟩)
        "PAYMENT" "ORDER_CREATED" "E1" (fun _ => false) 0 0).trace.head? =
      some (.dispatch true) ∧
    (Action.dispatch false) ∉
      (executeEventHandler
        (writeQueue emptyStore "PAYMENT" "ORDER_CREATED"
          ⟨"PAYMENT", "ORDER_CREATED", [], [⟨"E1", "c", 0⟩]⟩)
        "PAYMENT" "ORDER_CREATED" "E1" (fun _ => false) 0 0).trace ∧
    attemptDelay true = 5000 := by
  decide

/-- C5: within one delivery attempt `incrementTries` runs before the
handler (a handler step in the trace is always preceded by a successful
increment), and on handler success `eventAcknowledged` is then called;
consequently an event whose handler succeeds on the first attempt ends in
`processedEvents` with `tries = 1` and is absent from
`processingEvents`. -/
theorem attempt_order_inc_handler_ack (st : Store) (s : Domain) (t : Topic)
    (id : EventId) (c : Content) (now : Nat) :
    (∀ hOk isRetry,
      (∃ e, (tryProcessing st s t id hOk now isRetry).trace =
        [.dispatch isRetry, .incFailed e]) ∨
      (∃ tail, (tryProcessing st s t id hOk now isRetry).trace =
        .dispatch isRetry :: .incremented :: .handlerRun hOk :: tail)) ∧
    ((executeEventHandler (writeQueue st s t ⟨s, t, [], [⟨id, c, 0⟩]⟩) s t id
        (fun _ => true) now 0).trace =
      [.dispatch true, .incremented, .handlerRun true, .acked] ∧
     (executeEventHandler (writeQueue st s t ⟨s, t, [], [⟨id, c, 0⟩]⟩) s t id
        (fun _ => true) now 0).acked = true ∧
     (executeEventHandler (writeQueue st s t ⟨s, t, [], [⟨id, c, 0⟩]⟩) s t id
        (fun _ => true) now 0).triesCount = 1 ∧
     readQueue (executeEventHandler (writeQueue st s t ⟨s, t, [], [⟨id, c, 0⟩]⟩) s t id
        (fun _ => true) now 0).store s t = some ⟨s, t, [⟨id, 1, now⟩], []⟩) := by
  constructor
  · intro hOk isRetry
    rcases hi : incrementTries st s t id with ⟨r, st1⟩
    cases r with
    | error e => exact Or.inl ⟨e, by simp [tryProcessing, hi]⟩
    | ok u =>
        right
        cases hOk with
        | false => exact ⟨[], by simp [tryProcessing, hi]⟩
        | true =>
            rcases ha : eventAcknowledged st1 s t id now with ⟨r2, st2⟩
            cases r2 with
            | error e => exact ⟨[.ackFailed e], by simp [tryProcessing, hi, ha]⟩
            | ok u2 => exact ⟨[.acked], by simp [tryProcessing, hi, ha]⟩
  · simp [executeEventHandler, ehLoop, tryProcessing, incrementTries, eventAcknowledged,
      readQueue_writeQueue_same, incTriesFirst, removeFirst]

/-- C7 counterexample: with a handler that fails on attempts 1–4 and
succeeds on attempt 5, the event ends in `processedEvents` with
`tries = 5`, but zero error records exist — not four.  The source
swallows every attempt failure (`.catch(err => {})`) and never writes to
the error store. -/
theorem error_records_never_persisted_cex :
    (executeEventHandler
        (writeQueue emptyStore "PAYMENT" "ORDER_CREATED"
          ⟨"PAYMENT", "ORDER_CREATED", [], [⟨"E1", "c", 0⟩]⟩)
        "PAYMENT" "ORDER_CREATED" "E1" (fun n => decide (n = 5)) 7 0).acked = true ∧
    (executeEventHandler
        (writeQueue emptyStore "PAYMENT" "ORDER_CREATED"
          ⟨"PAYMENT", "ORDER_CREATED", [], [⟨"E1", "c", 0⟩]⟩)
        "PAYMENT" "ORDER_CREATED" "E1" (fun n => decide (n = 5)) 7 0).triesCount = 5 ∧
    readQueue (executeEventHandler
        (writeQueue emptyStore "PAYMENT" "ORDER_CREATED"
          ⟨"PAYMENT", "ORDER_CREATED", [], [⟨"E1", "c", 0⟩]⟩)
        "PAYMENT" "ORDER_CREATED" "E1" (fun n => decide (n = 5)) 7 0).store
      "PAYMENT" "ORDER_CREATED" =
      some ⟨"PAYMENT", "ORDER_CREATED", [⟨"E1", 5, 7⟩], []⟩ ∧
    (executeEventHandler
        (writeQueue emptyStore "PAYMENT" "ORDER_CREATED"
          ⟨"PAYMENT", "ORDER_CREATED", [], [⟨"E1", "c", 0⟩]⟩)
        "PAYMENT" "ORDER_CREATED" "E1" (fun n => decide (n = 5)) 7 0).store.errors.length ≠ 4 ∧
    (executeEventHandler
        (writeQueue emptyStore "PAYMENT" "ORDER_CREATED"
          ⟨"PAYMENT", "ORDER_CREATED", [], [⟨"E1", "c", 0⟩]⟩)
        "PAYMENT" "ORDER_CREATED" "E1" (fun n => decide (n = 5)) 7 0).store.errors = [] := by
  decide

/-- C7 amended: failed handler attempts leave the error store untouched
(no error record is ever persisted).  For a handler failing on attempts
1–4 and succeeding on attempt 5, the run makes 5 handler attempts, the
event ends in `processedEvents` with `tries = 5`, and the error store is
exactly what it was before — zero records were added. -/
theorem retry_then_success_no_error_records (st : Store) (s : Domain) (t : Topic)
    (id : EventId) (c : Content) (now : Nat) :
    (executeEventHandler (writeQueue st s t ⟨s, t, [], [⟨id, c, 0⟩]⟩) s t id
      (fun n => decide (n = 5)) now 0).acked = true ∧
    (executeEventHandler (writeQueue st s t ⟨s, t, [], [⟨id, c, 0⟩]⟩) s t id
      (fun n => decide (n = 5)) now 0).triesCount = 5 ∧
    handlerRunCount (executeEventHandler (writeQueue st s t ⟨s, t, [], [⟨id, c, 0⟩]⟩)
      s t id (fun n => decide (n = 5)) now 0).trace = 5 ∧
    readQueue (executeEventHandler (writeQueue st s t ⟨s, t, [], [⟨id, c, 0⟩]⟩) s t id
      (fun n => decide (n = 5)) now 0).store s t = some ⟨s, t, [⟨id, 5, now⟩], []⟩ ∧
    (executeEventHandler (writeQueue st s t ⟨s, t, [], [⟨id, c, 0⟩]⟩) s t id
      (fun n => decide (n = 5)) now 0).store.errors = st.errors := by
  simp [executeEventHandler, ehLoop, tryProcessing, incrementTries, eventAcknowledged,
    readQueue_writeQueue_same, incTriesFirst, removeFirst, handlerRunCount,
    writeQueue_errors]

/-- C8: a `processingEvents` entry restored at initialization with
`tries ≥ 5` is never attempted: the retry loop's guard fails immediately,
so the handler is never invoked, nothing is written, and the store —
including the queue the event sits in and the dead-letter store — is
exactly as before. -/
theorem over_budget_event_never_attempted (st : Store) (s : Domain) (t : Topic)
    (id : EventId) (handler : Nat → Bool) (now tries : Nat) (h : 5 ≤ tries) :
    executeEventHandler st s t id handler now tries =
      { store := st, triesCount := tries, acked := false, trace := [] } ∧
    handlerRunCount (executeEventHandler st s t id handler now tries).trace = 0 := by
  have h5 : ¬ tries < 5 := by omega
  simp [executeEventHandler, ehLoop, h5, handlerRunCount]

theorem over_budget_event_never_attempted_witness :
    (5 : Nat) ≤ 5 ∧
    executeEventHandler emptyStore "PAYMENT" "ORDER_CREATED" "E1" (fun _ => true) 0 5 =
      { store := emptyStore, triesCount := 5, acked := false, trace := [] } :=
  ⟨by decide,
   (over_budget_event_never_attempted emptyStore "PAYMENT" "ORDER_CREATED" "E1"
     (fun _ => true) 0 5 (by decide)).1⟩

end MessageBroker
